import Mathlib

/-!
# Verification of the zanbergify posterization pipeline

Shallow embedding of the repository's Python sources:

* `src/src/zanbergify/posterize.py` — plain posterize effect
  (`create_posterized_portrait`, `main`);
* `src/python_poc/src/zanbergify/painted.py` — painted effect
  (`load_and_prepare_image_painted`, `apply_painted_posterize`, `main`);
* `src/python_poc/src/zanbergify/detailed.py` — detailed effect
  (`load_and_prepare_image_detailed`, `apply_detailed_posterize`, `main`);
* `src/src/zanbergify/batch.py` — batch scheduler
  (`needs_processing`, `is_generated_file`, `process_batch`, preset tables).

Images are embedded pointwise: every OpenCV/numpy operation used by the
posterizers (boolean masks, masked assignment, `np.full_like`, `np.zeros_like`)
acts independently on each pixel, so a pixel is modelled by its brightness
value, its alpha/mask value and its colors, and an image by a function from an
abstract index type to pixel values.  Modification times are embedded as
rationals (`st_mtime` is a real-valued number of seconds; only its ordering is
used).  The external background remover and the filesystem are collaborators
outside the repository; the batch model abstracts them by an explicit
per-image load outcome and a per-preset staleness oracle (the boolean that
`needs_processing` returns for the preset's output file).
-/

set_option maxHeartbeats 1000000

/-- A pixel color in blue-green-red channel order, as used by the OpenCV-based
code (`[B, G, R]` triples in the Python sources). -/
structure BGRColor where
  b : Nat
  g : Nat
  r : Nat
  deriving DecidableEq, Repr

/-- `COLOR_BG` / `DEFAULT_COLOR_BG = [0, 0, 0]` (black) from `posterize.py`,
`painted.py` and `detailed.py`. -/
def DEFAULT_COLOR_BG : BGRColor := ⟨0, 0, 0⟩

/-- `COLOR_MIDTONE` / `DEFAULT_COLOR_MIDTONE = [147, 20, 255]` (deep magenta). -/
def DEFAULT_COLOR_MIDTONE : BGRColor := ⟨147, 20, 255⟩

/-- `COLOR_HIGHLIGHT` / `DEFAULT_COLOR_HIGHLIGHT = [0, 215, 255]` (bright yellow). -/
def DEFAULT_COLOR_HIGHLIGHT : BGRColor := ⟨0, 215, 255⟩

/-- Per-pixel semantics of the plain posterize painting step
(`create_posterized_portrait` in `posterize.py`, steps 4–5, and the
`apply_posterize` helper that `batch.py` imports, which applies the same
masks): the canvas starts as the background color
(`np.full_like(img_bgr, COLOR_BG)`), then pixels with
`mask_mid = (gray_blurred >= THRESH_LOW) & (gray_blurred < THRESH_HIGH)` and
`mask_subject = alpha > 10` are painted the midtone color, then pixels with
`mask_high = (gray_blurred >= THRESH_HIGH)` and `mask_subject` are painted the
highlight color.  The last assignment wins, so the final value of one pixel is
the nested conditional below.  The palette and thresholds are the
configuration constants of the source, taken here as parameters. -/
def apply_posterize_pixel (gray_blurred alpha thresh_low thresh_high : Nat)
    (color_bg color_midtone color_highlight : BGRColor) : BGRColor :=
  if thresh_high ≤ gray_blurred ∧ 10 < alpha then color_highlight
  else if (thresh_low ≤ gray_blurred ∧ gray_blurred < thresh_high) ∧ 10 < alpha then
    color_midtone
  else color_bg

/-- Per-pixel semantics of `apply_painted_posterize` (`painted.py`): canvas
starts as `np.full_like(img_bgr, color_bg)`; `mask_mid` and `mask_high` test
the mean-shifted grayscale image; `mask_subject = alpha_eroded.astype(bool)`
is true exactly when the eroded alpha value is nonzero. -/
def apply_painted_posterize_pixel (gray alpha_eroded thresh_low thresh_high : Nat)
    (color_bg color_midtone color_highlight : BGRColor) : BGRColor :=
  if thresh_high ≤ gray ∧ alpha_eroded ≠ 0 then color_highlight
  else if (thresh_low ≤ gray ∧ gray < thresh_high) ∧ alpha_eroded ≠ 0 then color_midtone
  else color_bg

/-- Per-pixel semantics of `apply_detailed_posterize` (`detailed.py`): the
canvas starts as `np.zeros_like(img_bgr)` — all-zero, i.e. black — and then
`mask_shadow & mask_subject` pixels receive `color_bg`,
`mask_mid & mask_subject` pixels receive `color_midtone`, and
`mask_high & mask_subject` pixels receive `color_highlight`, with
`mask_subject = alpha > 10`.  Non-subject pixels keep the zero initial value,
not `color_bg`. -/
def apply_detailed_posterize_pixel (enhanced_gray alpha thresh_low thresh_high : Nat)
    (color_bg color_midtone color_highlight : BGRColor) : BGRColor :=
  if thresh_high ≤ enhanced_gray ∧ 10 < alpha then color_highlight
  else if (thresh_low ≤ enhanced_gray ∧ enhanced_gray < thresh_high) ∧ 10 < alpha then
    color_midtone
  else if enhanced_gray < thresh_low ∧ 10 < alpha then color_bg
  else ⟨0, 0, 0⟩

/-- `needs_processing` from `batch.py`: the output is stale when the output
file does not exist, or the input file's modification time is newer than the
output's, or the latest source-file modification time is newer than the
output's.  Modification times (`st_mtime`, real-valued seconds) are embedded
as rationals; `output_mtime` is only consulted when the output exists, exactly
as in the source. -/
def needs_processing (output_exists : Bool) (input_mtime output_mtime source_mtime : ℚ) :
    Bool :=
  if output_exists = false then true
  else if input_mtime > output_mtime then true
  else if source_mtime > output_mtime then true
  else false

/-- `POSTERIZE_PRESETS` from `batch.py`: `(name, thresh_low, thresh_high)`. -/
def POSTERIZE_PRESETS : List (String × Nat × Nat) :=
  [("dark", 60, 130), ("balanced", 90, 165), ("bright", 120, 190),
    ("contrast", 70, 180), ("soft", 100, 150)]

/-- `PAINTED_PRESETS` from `batch.py`:
`(name, thresh_low, thresh_high, mean_shift_sp, mean_shift_sr)`. -/
def PAINTED_PRESETS : List (String × Nat × Nat × Nat × Nat) :=
  [("painted_smooth", 90, 165, 25, 50), ("painted_detail", 90, 165, 15, 35),
    ("painted_abstract", 90, 165, 35, 60)]

/-- `DETAILED_PRESETS` from `batch.py`:
`(name, thresh_low, thresh_high, clip_limit, tile_size)`.  The floating-point
clip limits `3.0`, `4.0`, `2.5` are embedded in tenths (`30`, `40`, `25`):
the batch code only compares clip limits for equality (when grouping presets
by parameters), and the tenths encoding preserves equality of these
constants. -/
def DETAILED_PRESETS : List (String × Nat × Nat × Nat × Nat) :=
  [("detailed_standard", 80, 160, 30, 8), ("detailed_strong", 70, 150, 40, 8),
    ("detailed_fine", 80, 160, 25, 4)]

/-- `ALL_PRESET_NAMES` from `batch.py`: the names of all configured presets,
used for filtering generated files. -/
def ALL_PRESET_NAMES : List String :=
  POSTERIZE_PRESETS.map (fun p => p.1) ++ PAINTED_PRESETS.map (fun p => p.1) ++
    DETAILED_PRESETS.map (fun p => p.1)

/-- `IMAGE_EXTENSIONS` from `batch.py` (a Python set; embedded as the list of
its elements). -/
def IMAGE_EXTENSIONS : List String := [".jpg", ".jpeg", ".png", ".webp", ".bmp"]

/-- Python's `str.lower()` on a filename extension: lowercase every character
(ASCII lowering, as `Char.toLower`). -/
def str_lower (s : String) : String := ⟨s.data.map Char.toLower⟩

/-- Python's `str.endswith(t)`: `t` is a suffix of `s`. -/
def str_ends_with (s t : String) : Bool := t.data.isSuffixOf s.data

/-- `is_generated_file` from `batch.py`, as a function of the file's stem
(`Path.stem`, the filename without its final extension): the stem ends with
`"_" + name` for some configured preset name, or with the legacy
`"_posterized"` suffix. -/
def is_generated_file (stem : String) : Bool :=
  ALL_PRESET_NAMES.any (fun name => str_ends_with stem ("_" ++ name)) ||
    str_ends_with stem "_posterized"

/-- The discovery filter of `process_batch` (`batch.py`), as a function of a
file's stem and suffix (`Path.stem` / `Path.suffix`, the suffix including the
leading dot): the file is selected as an input when its lowercased suffix is a
recognized image extension and it is not a generated file. -/
def selects_input (stem sfx : String) : Bool :=
  decide (str_lower sfx ∈ IMAGE_EXTENSIONS) && !is_generated_file stem

/-- The numpy arrays in scope during one `apply_*_posterize` call, indexed by
an abstract pixel-position type `ι`: the brightness field (`gray_blurred` /
`gray` / `enhanced_gray`), the subject-mask channel (`alpha` /
`alpha_eroded`), the color image `img_bgr`, and the output canvas
`final_img`.  Every numpy statement of these functions is embedded as an
update of this state; a masked assignment `final_img[mask] = color` replaces
`final_img` by the pointwise-updated array and touches nothing else, and
`np.full_like` / `np.zeros_like` allocate a fresh canvas, which is embedded as
replacing `final_img` wholesale. -/
structure FrameState (ι : Type) where
  brightness : ι → Nat
  alpha : ι → Nat
  img_bgr : ι → BGRColor
  final_img : ι → BGRColor

/-- The statements of the plain posterize painting step
(`create_posterized_portrait` / `apply_posterize`) as state updates:
`final_img = np.full_like(img_bgr, color_bg)`, then
`final_img[mask_mid & mask_subject] = color_midtone`, then
`final_img[mask_high & mask_subject] = color_highlight`, with
`mask_subject = alpha > 10`. -/
def apply_posterize_frame {ι : Type} (thresh_low thresh_high : Nat)
    (color_bg color_midtone color_highlight : BGRColor) (s : FrameState ι) :
    FrameState ι :=
  let s0 := { s with final_img := fun _ => color_bg }
  let s1 := { s0 with final_img := fun i =>
    if (thresh_low ≤ s0.brightness i ∧ s0.brightness i < thresh_high) ∧ 10 < s0.alpha i
    then color_midtone else s0.final_img i }
  { s1 with final_img := fun i =>
    if thresh_high ≤ s1.brightness i ∧ 10 < s1.alpha i then color_highlight
    else s1.final_img i }

/-- The statements of `apply_painted_posterize` (`painted.py`) as state
updates; the `alpha` field holds the eroded mask `alpha_eroded`, and
`mask_subject = alpha_eroded.astype(bool)` is truth of `≠ 0`. -/
def apply_painted_posterize_frame {ι : Type} (thresh_low thresh_high : Nat)
    (color_bg color_midtone color_highlight : BGRColor) (s : FrameState ι) :
    FrameState ι :=
  let s0 := { s with final_img := fun _ => color_bg }
  let s1 := { s0 with final_img := fun i =>
    if (thresh_low ≤ s0.brightness i ∧ s0.brightness i < thresh_high) ∧ s0.alpha i ≠ 0
    then color_midtone else s0.final_img i }
  { s1 with final_img := fun i =>
    if thresh_high ≤ s1.brightness i ∧ s1.alpha i ≠ 0 then color_highlight
    else s1.final_img i }

/-- The statements of `apply_detailed_posterize` (`detailed.py`) as state
updates: `final_img = np.zeros_like(img_bgr)`, then the shadow, midtone and
highlight masked assignments. -/
def apply_detailed_posterize_frame {ι : Type} (thresh_low thresh_high : Nat)
    (color_bg color_midtone color_highlight : BGRColor) (s : FrameState ι) :
    FrameState ι :=
  let s0 := { s with final_img := fun _ => (⟨0, 0, 0⟩ : BGRColor) }
  let s1 := { s0 with final_img := fun i =>
    if (s0.brightness i < thresh_low) ∧ 10 < s0.alpha i
    then color_bg else s0.final_img i }
  let s2 := { s1 with final_img := fun i =>
    if (thresh_low ≤ s1.brightness i ∧ s1.brightness i < thresh_high) ∧ 10 < s1.alpha i
    then color_midtone else s1.final_img i }
  { s2 with final_img := fun i =>
    if thresh_high ≤ s2.brightness i ∧ 10 < s2.alpha i then color_highlight
    else s2.final_img i }

/-- Outcome of one `load_and_prepare_image*` call for a given input file
(`posterize.py`, `painted.py`, `detailed.py`).  `ok`: the file opens, the
background remover runs and its bytes decode to an image, so the call returns
the prepared triple.  `fileMissing`: `open` raises `FileNotFoundError`, which
the `try` block catches, so the call returns `None` without invoking the
remover.  `bytesUndecodable`: the file opens and the remover runs, but
`Image.open` raises (e.g. `UnidentifiedImageError`), which the `except
FileNotFoundError` clause does not catch, so the exception propagates. -/
inductive LoadOutcome where
  | ok
  | fileMissing
  | bytesUndecodable
  deriving DecidableEq, Repr

/-- One discovered input image of a batch run.  `outcome` abstracts the
filesystem and the external background remover: it is the result every
`load_and_prepare_image*` call on this file has.  `stale` abstracts the
staleness check: it is the boolean `needs_processing` returns for the preset
of the given name (the output path is `<stem>_<presetName>.png`, so it is
determined by the preset name). -/
structure ImageJob where
  outcome : LoadOutcome
  stale : String → Bool

/-- The counters of a batch run: `processed` and `skipped` are the tallied
counts of `process_batch`; `removeCalls` instruments the model by counting the
invocations of the external background remover `remove` (one per
`load_and_prepare_image*` call that gets past opening the file and returns
normally). -/
structure BatchCounts where
  processed : Nat
  skipped : Nat
  removeCalls : Nat
  deriving DecidableEq, Repr

/-- Insertion of one keyed entry into the `by_params` dictionary of
`process_batch`, embedded as an insertion-ordered association list: a new key
is appended at the end, an existing key gets the value appended to its
group. -/
def addToGroups {K V : Type} [DecidableEq K] (groups : List (K × List V)) (k : K) (v : V) :
    List (K × List V) :=
  match groups with
  | [] => [(k, [v])]
  | (k0, vs) :: rest =>
    if k = k0 then (k0, vs ++ [v]) :: rest else (k0, vs) :: addToGroups rest k v

/-- The `by_params` grouping loop of `process_batch`: fold the presets to
process into an insertion-ordered dictionary keyed by their pre-processing
parameters. -/
def groupByKey {K V : Type} [DecidableEq K] (key : V → K) (l : List V) :
    List (K × List V) :=
  l.foldl (fun gs v => addToGroups gs (key v) v) []

/-- One algorithm family's processing loop for one image (`process_batch`):
for each parameter group a `load_and_prepare_image*` call is made; on `ok` the
remover ran once and each preset of the group is posterized (`processed`
increments per preset); on `fileMissing` the call returns `None` and the
`if result is not None` guard skips the group, continuing with the next one;
on `bytesUndecodable` the uncaught exception aborts the whole batch
(modelled as `.error ()`). -/
def runFamily {α : Type} (outcome : LoadOutcome) (groups : List (List α))
    (c : BatchCounts) : Except Unit BatchCounts :=
  match groups with
  | [] => .ok c
  | g :: rest =>
    match outcome with
    | .fileMissing => runFamily outcome rest c
    | .bytesUndecodable => .error ()
    | .ok =>
      runFamily outcome rest
        { c with processed := c.processed + g.length, removeCalls := c.removeCalls + 1 }

/-- The body of the per-image loop of `process_batch`: the posterize family
(one load for all its stale presets), then `skipped += 5 - |to_process|`; the
painted family grouped by `(mean_shift_sp, mean_shift_sr)`, then
`skipped += 3 - |to_process|`; the detailed family grouped by
`(clip_limit, tile_size)`, then `skipped += 3 - |to_process|`.  A preset is in
`to_process` exactly when `needs_processing` returned true for it, i.e. when
`job.stale` holds of its name. -/
def processImage (job : ImageJob) (c : BatchCounts) : Except Unit BatchCounts :=
  match runFamily job.outcome
      (if (POSTERIZE_PRESETS.filter fun p => job.stale p.1).isEmpty then []
        else [POSTERIZE_PRESETS.filter fun p => job.stale p.1]) c with
  | .error e => .error e
  | .ok c1 =>
    match runFamily job.outcome
        ((groupByKey (fun p => p.2.2.2) (PAINTED_PRESETS.filter fun p => job.stale p.1)).map
          Prod.snd)
        { c1 with
          skipped := c1.skipped + (POSTERIZE_PRESETS.length -
            (POSTERIZE_PRESETS.filter fun p => job.stale p.1).length) } with
    | .error e => .error e
    | .ok c2 =>
      match runFamily job.outcome
          ((groupByKey (fun p => p.2.2.2) (DETAILED_PRESETS.filter fun p => job.stale p.1)).map
            Prod.snd)
          { c2 with
            skipped := c2.skipped + (PAINTED_PRESETS.length -
              (PAINTED_PRESETS.filter fun p => job.stale p.1).length) } with
      | .error e => .error e
      | .ok c3 =>
        .ok { c3 with
          skipped := c3.skipped + (DETAILED_PRESETS.length -
            (DETAILED_PRESETS.filter fun p => job.stale p.1).length) }

/-- The observable result of one `process_batch` run.  `createdWorkFolder`:
the work folder did not exist; it is created and the run returns without a
tally.  `noImages`: no input images were discovered; the run prints
`"No image files found"` and returns without a tally.  `done c`: the run
prints the `"Done! Generated: ..., Skipped: ..."` tally with the counts of
`c`.  `crashed`: an uncaught exception aborted the run (the Python process
exits with a nonzero status and prints no tally). -/
inductive BatchOutcome where
  | createdWorkFolder
  | noImages
  | done (c : BatchCounts)
  | crashed
  deriving DecidableEq, Repr

/-- `process_batch` from `batch.py`, over the discovered input images: if the
work folder is missing it is created and the run ends; if no input images were
discovered the run ends without a tally; otherwise the images are processed in
order, threading the counters, and the tally is reported. -/
def process_batch (work_folder_exists : Bool) (images : List ImageJob) : BatchOutcome :=
  if work_folder_exists = false then .createdWorkFolder
  else if images.isEmpty then .noImages
  else
    match images.foldlM (fun c job => processImage job c) (⟨0, 0, 0⟩ : BatchCounts) with
    | .error _ => .crashed
    | .ok c => .done c

/-- The exit status of the batch CLI: `process_batch` returning normally gives
exit status 0; an uncaught exception makes the interpreter exit with 1. -/
def batch_exit_code : BatchOutcome → Nat
  | .crashed => 1
  | _ => 0

/-- The number of stale presets of one image: the presets whose
`needs_processing` check requested regeneration, across all three families. -/
def staleCount (job : ImageJob) : Nat :=
  (POSTERIZE_PRESETS.filter fun p => job.stale p.1).length +
    (PAINTED_PRESETS.filter fun p => job.stale p.1).length +
    (DETAILED_PRESETS.filter fun p => job.stale p.1).length

/-- The total number of stale presets of the images whose load fails with a
missing file: these presets end up counted in neither `processed` nor
`skipped`. -/
def missingStaleSum (images : List ImageJob) : Nat :=
  (images.map fun j => if j.outcome = LoadOutcome.fileMissing then staleCount j else 0).sum

/-- The argument handling of `main` in `posterize.py`: `sys.argv` (program
name first) with fewer than two entries prints usage and exits with status 1;
otherwise the input is `sys.argv[1]` and the output is `sys.argv[2]` when
present, else the default `"result.png"`.  The result is `.error code` for
`sys.exit(code)` and `.ok (input, output)` for a normal run. -/
def posterize_main_args (argv : List String) : Except Nat (String × String) :=
  match argv with
  | _prog :: input :: rest =>
    .ok (input, match rest with | out :: _ => out | [] => "result.png")
  | _ => .error 1

/-- The argument handling of `main` in `painted.py`: default output
`"painted_result.png"`. -/
def painted_main_args (argv : List String) : Except Nat (String × String) :=
  match argv with
  | _prog :: input :: rest =>
    .ok (input, match rest with | out :: _ => out | [] => "painted_result.png")
  | _ => .error 1

/-- The argument handling of `main` in `detailed.py`: default output
`"detailed_result.png"`. -/
def detailed_main_args (argv : List String) : Except Nat (String × String) :=
  match argv with
  | _prog :: input :: rest =>
    .ok (input, match rest with | out :: _ => out | [] => "detailed_result.png")
  | _ => .error 1

/-- Concrete job used as witness material: an image whose load succeeds and
whose eleven presets are all stale. -/
def allStaleOkJob : ImageJob := ⟨LoadOutcome.ok, fun _ => true⟩

/-- Concrete job: an image whose file is missing and whose presets are all
stale. -/
def allStaleMissingJob : ImageJob := ⟨LoadOutcome.fileMissing, fun _ => true⟩

/-- Concrete job: an image whose remover output cannot be decoded and whose
presets are all stale. -/
def allStaleBadJob : ImageJob := ⟨LoadOutcome.bytesUndecodable, fun _ => true⟩

/-- C1: for a subject pixel (alpha above the confidence threshold for the
plain variant, nonzero eroded alpha for the painted variant) and thresholds
`low < high`, the per-pixel classification of both cited posterizers
(`create_posterized_portrait` in `posterize.py` and `apply_painted_posterize`
in `painted.py`) is a total function with three bands: `b < low` gives the
shadow/background color, `low ≤ b < high` gives the midtone color and
`high ≤ b` gives the highlight color — so the boundary values `b = low` and
`b = high` are classified as midtone and highlight respectively — and for any
`b` exactly one of the three band conditions holds. -/
theorem subject_pixel_band_classification
    (gray alpha alpha_eroded low high : Nat) (bg mid hi : BGRColor)
    (hgray : gray ≤ 255) (hlh : low < high) (hsub : 10 < alpha)
    (hsubE : alpha_eroded ≠ 0) :
    ((gray < low →
        apply_posterize_pixel gray alpha low high bg mid hi = bg ∧
        apply_painted_posterize_pixel gray alpha_eroded low high bg mid hi = bg) ∧
      (low ≤ gray → gray < high →
        apply_posterize_pixel gray alpha low high bg mid hi = mid ∧
        apply_painted_posterize_pixel gray alpha_eroded low high bg mid hi = mid) ∧
      (high ≤ gray →
        apply_posterize_pixel gray alpha low high bg mid hi = hi ∧
        apply_painted_posterize_pixel gray alpha_eroded low high bg mid hi = hi)) ∧
    ((gray < low ∧ ¬(low ≤ gray ∧ gray < high) ∧ ¬high ≤ gray) ∨
      (¬gray < low ∧ (low ≤ gray ∧ gray < high) ∧ ¬high ≤ gray) ∨
      (¬gray < low ∧ ¬(low ≤ gray ∧ gray < high) ∧ high ≤ gray)) := by
  unfold apply_posterize_pixel apply_painted_posterize_pixel
  refine ⟨⟨?_, ?_, ?_⟩, by omega⟩
  · intro h
    constructor <;> (split_ifs <;> first | rfl | omega)
  · intro h1 h2
    constructor <;> (split_ifs <;> first | rfl | omega)
  · intro h
    constructor <;> (split_ifs <;> first | rfl | omega)

/-- Witness for C1 at the concrete input of the spec's 2×2 scenario:
brightness 100 with thresholds `(90, 165)` on a fully opaque subject pixel is
classified as midtone by both posterizers. -/
theorem subject_pixel_band_classification_witness :
    apply_posterize_pixel 100 255 90 165 DEFAULT_COLOR_BG DEFAULT_COLOR_MIDTONE
        DEFAULT_COLOR_HIGHLIGHT = DEFAULT_COLOR_MIDTONE ∧
    apply_painted_posterize_pixel 100 1 90 165 DEFAULT_COLOR_BG DEFAULT_COLOR_MIDTONE
        DEFAULT_COLOR_HIGHLIGHT = DEFAULT_COLOR_MIDTONE :=
  (subject_pixel_band_classification 100 255 1 90 165 DEFAULT_COLOR_BG
      DEFAULT_COLOR_MIDTONE DEFAULT_COLOR_HIGHLIGHT (by decide) (by decide)
      (by decide) (by decide)).1.2.1 (by decide) (by decide)

/-- Counterexample to C2: the detailed variant (`apply_detailed_posterize`)
initializes its canvas with `np.zeros_like`, so with a non-default background
color `[1, 2, 3]` a non-subject pixel (alpha 0) of brightness 200 comes out
black `[0, 0, 0]`, not the configured background color — the claim fails for
the detailed variant. -/
theorem detailed_nonsubject_pixel_counterexample :
    apply_detailed_posterize_pixel 200 0 80 160 ⟨1, 2, 3⟩ DEFAULT_COLOR_MIDTONE
        DEFAULT_COLOR_HIGHLIGHT = ⟨0, 0, 0⟩ ∧
    (⟨0, 0, 0⟩ : BGRColor) ≠ ⟨1, 2, 3⟩ := by
  constructor
  · decide
  · decide

/-- C2 amended: for every palette and every non-subject pixel, regardless of
brightness, the plain and painted variants produce the configured background
color (their canvas is `np.full_like(img_bgr, color_bg)`), while the detailed
variant produces black `[0, 0, 0]` (its canvas is `np.zeros_like(img_bgr)`),
which equals the configured background color only when that color is the
default black. -/
theorem nonsubject_pixel_background_color
    (gray alpha alpha_eroded low high : Nat) (bg mid hi : BGRColor) :
    (alpha ≤ 10 → apply_posterize_pixel gray alpha low high bg mid hi = bg) ∧
    (alpha_eroded = 0 →
      apply_painted_posterize_pixel gray alpha_eroded low high bg mid hi = bg) ∧
    (alpha ≤ 10 →
      apply_detailed_posterize_pixel gray alpha low high bg mid hi = ⟨0, 0, 0⟩) := by
  unfold apply_posterize_pixel apply_painted_posterize_pixel apply_detailed_posterize_pixel
  refine ⟨?_, ?_, ?_⟩ <;> intro h <;> (split_ifs <;> first | rfl | omega)

/-- The boolean returned by `needs_processing`, characterized as a
disjunction. -/
lemma needs_processing_eq_true_iff (e : Bool) (i o s : ℚ) :
    needs_processing e i o s = true ↔ (e = false ∨ i > o ∨ s > o) := by
  unfold needs_processing
  split_ifs with h1 h2 h3
  · simp [h1]
  · simp [h2]
  · simp [h3]
  · simp only [Bool.false_eq_true, false_iff]
    rintro (h | h | h)
    · exact h1 h
    · exact h2 h
    · exact h3 h

/-- C3: `needs_processing` returns true exactly when the output is missing, or
the input is newer, or the sources are newer; consequently an existing output
at least as new as both input and sources is not stale, and any input
modification time newer than the output flips the pair to stale. -/
theorem needs_processing_staleness
    (output_exists : Bool) (input_mtime output_mtime source_mtime : ℚ) :
    (needs_processing output_exists input_mtime output_mtime source_mtime = true ↔
      (output_exists = false ∨ input_mtime > output_mtime ∨
        source_mtime > output_mtime)) ∧
    (output_exists = true → input_mtime ≤ output_mtime → source_mtime ≤ output_mtime →
      needs_processing output_exists input_mtime output_mtime source_mtime = false) ∧
    (∀ new_input_mtime : ℚ, new_input_mtime > output_mtime →
      needs_processing output_exists new_input_mtime output_mtime source_mtime = true) := by
  refine ⟨needs_processing_eq_true_iff _ _ _ _, ?_, ?_⟩
  · intro he h1 h2
    by_contra hne
    rw [Bool.not_eq_false] at hne
    rcases (needs_processing_eq_true_iff _ _ _ _).mp hne with h | h | h
    · rw [he] at h
      simp at h
    · linarith
    · linarith
  · intro new_input_mtime hi
    exact (needs_processing_eq_true_iff _ _ _ _).mpr (Or.inr (Or.inl hi))

/-- Witness for C3: an existing output with mtime 10 is not stale for input
mtime 7 and source mtime 5, and becomes stale when the input mtime moves
to 21/2. -/
theorem needs_processing_staleness_witness :
    needs_processing true 7 10 5 = false ∧ needs_processing true (21/2) 10 5 = true := by
  have h := needs_processing_staleness true 7 10 5
  exact ⟨h.2.1 rfl (by norm_num) (by norm_num), h.2.2 (21/2) (by norm_num)⟩

/-- C6: a file of the work directory is selected as an input exactly when its
extension, compared case-insensitively, is one of `.jpg`, `.jpeg`, `.png`,
`.webp`, `.bmp`, and its stem neither ends with `_<presetName>` for any of
the eleven configured preset names nor with the legacy `_posterized` suffix;
in particular there are exactly eleven configured preset names, and any file
matching a generated-output name is excluded no matter its other properties. -/
theorem input_discovery_characterization (stem sfx : String) :
    (selects_input stem sfx = true ↔
      ((str_lower sfx = ".jpg" ∨ str_lower sfx = ".jpeg" ∨ str_lower sfx = ".png" ∨
          str_lower sfx = ".webp" ∨ str_lower sfx = ".bmp") ∧
        ¬(str_ends_with stem "_dark" = true ∨ str_ends_with stem "_balanced" = true ∨
            str_ends_with stem "_bright" = true ∨ str_ends_with stem "_contrast" = true ∨
            str_ends_with stem "_soft" = true ∨ str_ends_with stem "_painted_smooth" = true ∨
            str_ends_with stem "_painted_detail" = true ∨
            str_ends_with stem "_painted_abstract" = true ∨
            str_ends_with stem "_detailed_standard" = true ∨
            str_ends_with stem "_detailed_strong" = true ∨
            str_ends_with stem "_detailed_fine" = true ∨
            str_ends_with stem "_posterized" = true))) ∧
    ALL_PRESET_NAMES.length = 11 := by
  constructor
  · have e01 : ("_" ++ "dark" : String) = "_dark" := rfl
    have e02 : ("_" ++ "balanced" : String) = "_balanced" := rfl
    have e03 : ("_" ++ "bright" : String) = "_bright" := rfl
    have e04 : ("_" ++ "contrast" : String) = "_contrast" := rfl
    have e05 : ("_" ++ "soft" : String) = "_soft" := rfl
    have e06 : ("_" ++ "painted_smooth" : String) = "_painted_smooth" := rfl
    have e07 : ("_" ++ "painted_detail" : String) = "_painted_detail" := rfl
    have e08 : ("_" ++ "painted_abstract" : String) = "_painted_abstract" := rfl
    have e09 : ("_" ++ "detailed_standard" : String) = "_detailed_standard" := rfl
    have e10 : ("_" ++ "detailed_strong" : String) = "_detailed_strong" := rfl
    have e11 : ("_" ++ "detailed_fine" : String) = "_detailed_fine" := rfl
    simp only [selects_input, is_generated_file, ALL_PRESET_NAMES, POSTERIZE_PRESETS,
      PAINTED_PRESETS, DETAILED_PRESETS, IMAGE_EXTENSIONS, List.map,
      List.cons_append, List.nil_append, List.any_cons, List.any_nil,
      e01, e02, e03, e04, e05, e06, e07, e08, e09, e10, e11,
      Bool.and_eq_true, decide_eq_true_eq, List.mem_cons, List.not_mem_nil, or_false,
      Bool.not_eq_true', Bool.or_eq_false_iff, not_or, Bool.not_eq_true, Bool.or_false]
    tauto
  · decide

/-- Witness for C6: `portrait.JPG` is selected; `portrait_dark.png` (a
generated-output name) is not. -/
theorem input_discovery_characterization_witness :
    selects_input "portrait" ".JPG" = true ∧ selects_input "portrait_dark" ".png" = false := by
  constructor
  · exact ((input_discovery_characterization "portrait" ".JPG").1).mpr
      ⟨Or.inl (by decide), by decide⟩
  · have h := (input_discovery_characterization "portrait_dark" ".png").1
    by_contra hc
    rw [Bool.not_eq_false] at hc
    exact (h.mp hc).2 (Or.inl (by decide))

/-- C9: each apply-posterize function writes only to the freshly allocated
output canvas: the brightness field, the mask channel and the color image are
unchanged by all three variants, and therefore re-applying a variant with a
second preset to the already-used triple produces exactly the output the
second preset would produce on the pristine triple. -/
theorem apply_posterize_preserves_inputs {ι : Type}
    (low high low' high' : Nat) (bg mid hi bg' mid' hi' : BGRColor) (s : FrameState ι) :
    ((apply_posterize_frame low high bg mid hi s).brightness = s.brightness ∧
      (apply_posterize_frame low high bg mid hi s).alpha = s.alpha ∧
      (apply_posterize_frame low high bg mid hi s).img_bgr = s.img_bgr) ∧
    ((apply_painted_posterize_frame low high bg mid hi s).brightness = s.brightness ∧
      (apply_painted_posterize_frame low high bg mid hi s).alpha = s.alpha ∧
      (apply_painted_posterize_frame low high bg mid hi s).img_bgr = s.img_bgr) ∧
    ((apply_detailed_posterize_frame low high bg mid hi s).brightness = s.brightness ∧
      (apply_detailed_posterize_frame low high bg mid hi s).alpha = s.alpha ∧
      (apply_detailed_posterize_frame low high bg mid hi s).img_bgr = s.img_bgr) ∧
    ((apply_posterize_frame low' high' bg' mid' hi'
        (apply_posterize_frame low high bg mid hi s)).final_img =
      (apply_posterize_frame low' high' bg' mid' hi' s).final_img ∧
      (apply_painted_posterize_frame low' high' bg' mid' hi'
        (apply_painted_posterize_frame low high bg mid hi s)).final_img =
      (apply_painted_posterize_frame low' high' bg' mid' hi' s).final_img ∧
      (apply_detailed_posterize_frame low' high' bg' mid' hi'
        (apply_detailed_posterize_frame low high bg mid hi s)).final_img =
      (apply_detailed_posterize_frame low' high' bg' mid' hi' s).final_img) :=
  ⟨⟨rfl, rfl, rfl⟩, ⟨rfl, rfl, rfl⟩, ⟨rfl, rfl, rfl⟩, rfl, rfl, rfl⟩

/-- Counterexample to C7: the posterize tool invoked with an input image and
no output argument writes to `"result.png"`, not to the claimed
`"posterize_result.png"`. -/
theorem posterize_default_output_counterexample :
    posterize_main_args ["posterize", "photo.jpg"] = .ok ("photo.jpg", "result.png") ∧
    ("result.png" : String) ≠ "posterize_result.png" := by
  constructor
  · rfl
  · decide

/-- C7 amended: each single-effect tool invoked without an input image exits
with the non-zero status 1 after printing usage; with an input image and no
output argument, painted and detailed default to `<tool>_result.png`
(`painted_result.png`, `detailed_result.png`), while posterize defaults to
`result.png`. -/
theorem cli_usage_and_default_output (prog input : String) :
    posterize_main_args [prog] = .error 1 ∧
    painted_main_args [prog] = .error 1 ∧
    detailed_main_args [prog] = .error 1 ∧
    posterize_main_args [] = .error 1 ∧
    painted_main_args [] = .error 1 ∧
    detailed_main_args [] = .error 1 ∧
    (1 : Nat) ≠ 0 ∧
    posterize_main_args [prog, input] = .ok (input, "result.png") ∧
    painted_main_args [prog, input] = .ok (input, "painted_result.png") ∧
    detailed_main_args [prog, input] = .ok (input, "detailed_result.png") :=
  ⟨rfl, rfl, rfl, rfl, rfl, rfl, by decide, rfl, rfl, rfl⟩

/-- Witness for the amended C2: the spec's half-transparent scenario — an
alpha-0 pixel of brightness 200 with the default palette is forced to the
background color black by all three variants. -/
theorem nonsubject_pixel_background_color_witness :
    apply_posterize_pixel 200 0 90 165 DEFAULT_COLOR_BG DEFAULT_COLOR_MIDTONE
        DEFAULT_COLOR_HIGHLIGHT = DEFAULT_COLOR_BG ∧
    apply_painted_posterize_pixel 200 0 90 165 DEFAULT_COLOR_BG DEFAULT_COLOR_MIDTONE
        DEFAULT_COLOR_HIGHLIGHT = DEFAULT_COLOR_BG ∧
    apply_detailed_posterize_pixel 200 0 80 160 DEFAULT_COLOR_BG DEFAULT_COLOR_MIDTONE
        DEFAULT_COLOR_HIGHLIGHT = ⟨0, 0, 0⟩ := by
  have h := nonsubject_pixel_background_color 200 0 0 90 165 DEFAULT_COLOR_BG
    DEFAULT_COLOR_MIDTONE DEFAULT_COLOR_HIGHLIGHT
  have h2 := nonsubject_pixel_background_color 200 0 0 80 160 DEFAULT_COLOR_BG
    DEFAULT_COLOR_MIDTONE DEFAULT_COLOR_HIGHLIGHT
  exact ⟨h.1 (by decide), h.2.1 (by decide), h2.2.2 (by decide)⟩

/-- One family loop on a loadable image: every group costs one remover call
and posterizes each of its presets. -/
lemma runFamily_ok {α : Type} (groups : List (List α)) (c : BatchCounts) :
    runFamily LoadOutcome.ok groups c =
      .ok ⟨c.processed + (groups.map List.length).sum, c.skipped,
        c.removeCalls + groups.length⟩ := by
  induction groups generalizing c with
  | nil => simp [runFamily]
  | cons g rest ih =>
    simp only [runFamily, ih, List.map_cons, List.sum_cons, List.length_cons,
      Except.ok.injEq, BatchCounts.mk.injEq, and_true, true_and]
    omega

/-- One family loop on a missing file: every load returns `None`, nothing is
posterized and the remover is never reached. -/
lemma runFamily_fileMissing {α : Type} (groups : List (List α)) (c : BatchCounts) :
    runFamily LoadOutcome.fileMissing groups c = .ok c := by
  induction groups generalizing c with
  | nil => rfl
  | cons g rest ih => simpa [runFamily] using ih c

/-- Inserting into the `by_params` dictionary grows the total number of
grouped presets by one. -/
lemma sum_addToGroups {K V : Type} [DecidableEq K] (gs : List (K × List V)) (k : K) (v : V) :
    ((addToGroups gs k v).map fun g => g.2.length).sum =
      ((gs.map fun g => g.2.length).sum) + 1 := by
  induction gs with
  | nil => simp [addToGroups]
  | cons g rest ih =>
    obtain ⟨k0, vs⟩ := g
    simp only [addToGroups]
    split_ifs with h
    · simp only [List.map_cons, List.sum_cons, List.length_append, List.length_cons,
        List.length_nil]
      omega
    · simp only [List.map_cons, List.sum_cons, ih]
      omega

/-- The grouping loop partitions the presets: group sizes sum to the number
of grouped presets. -/
lemma sum_groupByKey_aux {K V : Type} [DecidableEq K] (key : V → K) (l : List V)
    (gs : List (K × List V)) :
    ((l.foldl (fun gs v => addToGroups gs (key v) v) gs).map fun g => g.2.length).sum =
      ((gs.map fun g => g.2.length).sum) + l.length := by
  induction l generalizing gs with
  | nil => simp
  | cons v rest ih =>
    simp only [List.foldl_cons, ih, sum_addToGroups, List.length_cons]
    omega

/-- The groups produced by `groupByKey` cover each grouped preset exactly
once. -/
lemma sum_groupByKey {K V : Type} [DecidableEq K] (key : V → K) (l : List V) :
    (((groupByKey key l).map Prod.snd).map List.length).sum = l.length := by
  have h := sum_groupByKey_aux key l []
  simpa [groupByKey, List.map_map, Function.comp] using h

/-- Inserting a key not yet present appends a new singleton group. -/
lemma addToGroups_fresh {K V : Type} [DecidableEq K] (gs : List (K × List V)) (k : K)
    (v : V) (h : k ∉ gs.map Prod.fst) : addToGroups gs k v = gs ++ [(k, [v])] := by
  induction gs with
  | nil => rfl
  | cons g rest ih =>
    obtain ⟨k0, vs⟩ := g
    simp only [List.map_cons, List.mem_cons] at h
    push_neg at h
    simp only [addToGroups, if_neg h.1, List.cons_append, List.cons.injEq, true_and]
    exact ih h.2

/-- When the grouped presets have pairwise distinct keys, grouping creates one
group per preset, in order. -/
lemma groupByKey_aux_nodup {K V : Type} [DecidableEq K] (key : V → K) (l : List V)
    (gs : List (K × List V)) (hnd : (l.map key).Nodup)
    (hdisj : ∀ v ∈ l, key v ∉ gs.map Prod.fst) :
    (l.foldl (fun gs v => addToGroups gs (key v) v) gs).length = gs.length + l.length ∧
    (l.foldl (fun gs v => addToGroups gs (key v) v) gs).map Prod.fst =
      gs.map Prod.fst ++ l.map key := by
  induction l generalizing gs with
  | nil => simp
  | cons v rest ih =>
    simp only [List.map_cons, List.nodup_cons] at hnd
    have hfresh : key v ∉ gs.map Prod.fst := hdisj v (List.mem_cons_self v rest)
    have hdisj' : ∀ u ∈ rest, key u ∉ (gs ++ [(key v, [v])]).map Prod.fst := by
      intro u hu
      simp only [List.map_append, List.mem_append, List.map_cons, List.map_nil,
        List.mem_singleton, not_or]
      refine ⟨hdisj u (List.mem_cons_of_mem v hu), ?_⟩
      intro heq
      exact hnd.1 (heq ▸ List.mem_map_of_mem key hu)
    obtain ⟨ih1, ih2⟩ := ih (gs ++ [(key v, [v])]) hnd.2 hdisj'
    simp only [List.foldl_cons, addToGroups_fresh gs (key v) v hfresh]
    constructor
    · rw [ih1]
      simp only [List.length_append, List.length_cons, List.length_nil]
      omega
    · rw [ih2]
      simp

/-- With pairwise distinct parameter keys, the number of groups equals the
number of grouped presets. -/
lemma groupByKey_length_of_nodup {K V : Type} [DecidableEq K] (key : V → K) (l : List V)
    (hnd : (l.map key).Nodup) : (groupByKey key l).length = l.length := by
  have h := (groupByKey_aux_nodup key l [] hnd (by simp)).1
  simpa [groupByKey] using h

/-- The `(mean_shift_sp, mean_shift_sr)` keys of any selection of painted
presets are pairwise distinct (all three configured pairs differ). -/
lemma painted_keys_nodup (pred : String × Nat × Nat × Nat × Nat → Bool) :
    ((PAINTED_PRESETS.filter pred).map fun p => p.2.2.2).Nodup :=
  List.Nodup.sublist (List.Sublist.map _ (List.filter_sublist PAINTED_PRESETS))
    (by decide)

/-- The `(clip_limit, tile_size)` keys of any selection of detailed presets
are pairwise distinct (all three configured pairs differ). -/
lemma detailed_keys_nodup (pred : String × Nat × Nat × Nat × Nat → Bool) :
    ((DETAILED_PRESETS.filter pred).map fun p => p.2.2.2).Nodup :=
  List.Nodup.sublist (List.Sublist.map _ (List.filter_sublist DETAILED_PRESETS))
    (by decide)

/-- Processing one loadable image: each stale preset is posterized once, the
up-to-date presets are skipped, and the remover runs once for the posterize
family (if it has stale presets) plus once per stale painted preset and once
per stale detailed preset — the configured painted and detailed parameter
pairs are pairwise distinct, so grouping never merges two presets. -/
lemma processImage_ok (job : ImageJob) (c : BatchCounts)
    (h : job.outcome = LoadOutcome.ok) :
    processImage job c = .ok
      ⟨c.processed + staleCount job, c.skipped + (11 - staleCount job),
        c.removeCalls +
          ((if (POSTERIZE_PRESETS.filter fun p => job.stale p.1).isEmpty then 0 else 1) +
            (PAINTED_PRESETS.filter fun p => job.stale p.1).length +
            (DETAILED_PRESETS.filter fun p => job.stale p.1).length)⟩ := by
  have hpa := groupByKey_length_of_nodup (fun p => p.2.2.2)
    (PAINTED_PRESETS.filter fun p => job.stale p.1) (painted_keys_nodup _)
  have hde := groupByKey_length_of_nodup (fun p => p.2.2.2)
    (DETAILED_PRESETS.filter fun p => job.stale p.1) (detailed_keys_nodup _)
  have ha : (POSTERIZE_PRESETS.filter fun p => job.stale p.1).length ≤ 5 :=
    List.length_filter_le _ _
  have hb : (PAINTED_PRESETS.filter fun p => job.stale p.1).length ≤ 3 :=
    List.length_filter_le _ _
  have hd : (DETAILED_PRESETS.filter fun p => job.stale p.1).length ≤ 3 :=
    List.length_filter_le _ _
  have h5 : POSTERIZE_PRESETS.length = 5 := rfl
  have h3a : PAINTED_PRESETS.length = 3 := rfl
  have h3b : DETAILED_PRESETS.length = 3 := rfl
  by_cases hP : (POSTERIZE_PRESETS.filter fun p => job.stale p.1).isEmpty = true
  · have hP0 : (POSTERIZE_PRESETS.filter fun p => job.stale p.1).length = 0 := by
      rw [List.isEmpty_iff] at hP
      simp [hP]
    simp only [processImage, h, hP, if_true, runFamily_ok, List.map_nil, List.sum_nil,
      List.length_nil, List.length_map, sum_groupByKey, hpa, hde,
      Except.ok.injEq, BatchCounts.mk.injEq, h5, h3a, h3b, staleCount]
    refine ⟨by omega, by omega, by omega⟩
  · rw [Bool.not_eq_true] at hP
    simp only [processImage, h, hP, Bool.false_eq_true, if_false, runFamily_ok,
      List.map_cons, List.map_nil, List.sum_cons, List.sum_nil, List.length_cons,
      List.length_nil, List.length_map, sum_groupByKey, hpa, hde, Except.ok.injEq,
      BatchCounts.mk.injEq, h5, h3a, h3b, staleCount]
    refine ⟨by omega, by omega, by omega⟩

/-- Processing an image whose file is missing: every load returns the `None`
sentinel, so nothing is posterized and the remover never runs, while the
up-to-date presets are still counted as skipped. -/
lemma processImage_fileMissing (job : ImageJob) (c : BatchCounts)
    (h : job.outcome = LoadOutcome.fileMissing) :
    processImage job c = .ok
      ⟨c.processed, c.skipped + (11 - staleCount job), c.removeCalls⟩ := by
  have ha : (POSTERIZE_PRESETS.filter fun p => job.stale p.1).length ≤ 5 :=
    List.length_filter_le _ _
  have hb : (PAINTED_PRESETS.filter fun p => job.stale p.1).length ≤ 3 :=
    List.length_filter_le _ _
  have hd : (DETAILED_PRESETS.filter fun p => job.stale p.1).length ≤ 3 :=
    List.length_filter_le _ _
  have h5 : POSTERIZE_PRESETS.length = 5 := rfl
  have h3a : PAINTED_PRESETS.length = 3 := rfl
  have h3b : DETAILED_PRESETS.length = 3 := rfl
  simp only [processImage, h, runFamily_fileMissing, Except.ok.injEq,
    BatchCounts.mk.injEq, h5, h3a, h3b, staleCount, and_true, true_and]
  omega

/-- Folding the per-image loop over images none of which has undecodable
remover output: the batch completes, and the processed and skipped tallies
account for every preset of every image except the stale presets of images
whose file is missing. -/
lemma foldlM_processImage (images : List ImageJob) (c : BatchCounts)
    (h : ∀ j ∈ images, j.outcome ≠ LoadOutcome.bytesUndecodable) :
    ∃ c', images.foldlM (fun c job => processImage job c) c = .ok c' ∧
      c'.processed + c'.skipped + missingStaleSum images =
        c.processed + c.skipped + 11 * images.length := by
  induction images generalizing c with
  | nil => exact ⟨c, rfl, by simp [missingStaleSum]⟩
  | cons job rest ih =>
    have hstale : staleCount job ≤ 11 := by
      have ha : (POSTERIZE_PRESETS.filter fun p => job.stale p.1).length ≤ 5 :=
        List.length_filter_le _ _
      have hb : (PAINTED_PRESETS.filter fun p => job.stale p.1).length ≤ 3 :=
        List.length_filter_le _ _
      have hd : (DETAILED_PRESETS.filter fun p => job.stale p.1).length ≤ 3 :=
        List.length_filter_le _ _
      unfold staleCount
      omega
    have hrest : ∀ j ∈ rest, j.outcome ≠ LoadOutcome.bytesUndecodable :=
      fun j hj => h j (List.mem_cons_of_mem job hj)
    cases houtcome : job.outcome with
    | bytesUndecodable => exact absurd houtcome (h job (List.mem_cons_self job rest))
    | ok =>
      obtain ⟨c', h1, h2⟩ := ih
        ⟨c.processed + staleCount job, c.skipped + (11 - staleCount job),
          c.removeCalls +
            ((if (POSTERIZE_PRESETS.filter fun p => job.stale p.1).isEmpty then 0 else 1) +
              (PAINTED_PRESETS.filter fun p => job.stale p.1).length +
              (DETAILED_PRESETS.filter fun p => job.stale p.1).length)⟩ hrest
      refine ⟨c', ?_, ?_⟩
      · rw [List.foldlM_cons, processImage_ok job c houtcome]
        simpa using h1
      · simp only [missingStaleSum, List.map_cons, List.sum_cons, houtcome,
          List.length_cons] at h2 ⊢
        have hz : (if LoadOutcome.ok = LoadOutcome.fileMissing then staleCount job else 0)
            = 0 := rfl
        rw [hz]
        omega
    | fileMissing =>
      obtain ⟨c', h1, h2⟩ := ih
        ⟨c.processed, c.skipped + (11 - staleCount job), c.removeCalls⟩ hrest
      refine ⟨c', ?_, ?_⟩
      · rw [List.foldlM_cons, processImage_fileMissing job c houtcome]
        simpa using h1
      · simp only [missingStaleSum, List.map_cons, List.sum_cons, houtcome,
          List.length_cons, eq_self_iff_true, if_true] at h2 ⊢
        omega

/-- One step of the batch loop, when the image's processing returns
normally. -/
lemma foldlM_cons_ok {c c1 : BatchCounts} {job : ImageJob} {rest : List ImageJob}
    (h : processImage job c = .ok c1) :
    (job :: rest).foldlM (fun c job => processImage job c) c =
      rest.foldlM (fun c job => processImage job c) c1 := by
  rw [List.foldlM_cons, h]
  rfl

/-- Counterexample to C4: a batch of one loadable image with all eleven
presets stale invokes the background remover seven times (once for the
posterize family, once per painted parameter group and once per detailed
parameter group), not exactly once. -/
theorem remover_called_seven_times_counterexample :
    process_batch true [allStaleOkJob] = .done ⟨11, 0, 7⟩ ∧ (7 : Nat) ≠ 1 := by
  constructor
  · decide
  · decide

/-- C4 amended: for one loadable image, the background remover is invoked
once per (algorithm family, pre-processing parameter group) that has at least
one stale preset — not once per image: one call for the posterize family when
any of its presets is stale, plus one call per stale painted preset and one
per stale detailed preset (the configured painted and detailed parameter
pairs are pairwise distinct, so every group is a singleton); each call's
result is shared by all presets of its group, and every stale preset is
posterized exactly once. -/
theorem remover_invocations_per_parameter_group (job : ImageJob)
    (h : job.outcome = LoadOutcome.ok) :
    process_batch true [job] = .done
      ⟨staleCount job, 11 - staleCount job,
        (if (POSTERIZE_PRESETS.filter fun p => job.stale p.1).isEmpty then 0 else 1) +
          (PAINTED_PRESETS.filter fun p => job.stale p.1).length +
          (DETAILED_PRESETS.filter fun p => job.stale p.1).length⟩ := by
  simp only [process_batch, Bool.true_eq_false, if_false, List.isEmpty_cons,
    Bool.false_eq_true]
  rw [foldlM_cons_ok (processImage_ok job ⟨0, 0, 0⟩ h), List.foldlM_nil]
  show BatchOutcome.done _ = BatchOutcome.done _
  simp

/-- Witness for the amended C4: with every preset stale, one loadable image
yields eleven generated outputs, zero skipped presets and seven remover
invocations. -/
theorem remover_invocations_per_parameter_group_witness :
    process_batch true [allStaleOkJob] = .done ⟨11, 0, 7⟩ :=
  (remover_invocations_per_parameter_group allStaleOkJob rfl).trans (by decide)

/-- Counterexample to C5: an image whose remover bytes cannot be decoded
raises an exception that only `except FileNotFoundError` would have to catch
but does not, so the batch crashes and the following loadable image is never
processed — the batch does not continue to completion and no tally is
reported. -/
theorem undecodable_image_aborts_batch_counterexample :
    process_batch true [allStaleBadJob, allStaleOkJob] = .crashed ∧
    ¬∃ c, process_batch true [allStaleBadJob, allStaleOkJob] = .done c := by
  refine ⟨by decide, ?_⟩
  rintro ⟨c, hc⟩
  rw [show process_batch true [allStaleBadJob, allStaleOkJob] = .crashed by decide] at hc
  exact BatchOutcome.noConfusion hc

/-- C5 amended: a missing input file makes every `load_and_prepare_image*`
call return the `None` sentinel (only `FileNotFoundError` is caught), the
scheduler skips that image's remaining work, and the other images of the
batch are processed to completion: the batch with a missing-file image
between two loadable images finishes with a tally whose processed count is
exactly the stale presets of the two loadable images.  (Bytes that cannot be
decoded are not turned into the sentinel: they raise an uncaught exception,
see the counterexample.) -/
theorem missing_file_skips_only_that_image (good1 bad good2 : ImageJob)
    (h1 : good1.outcome = LoadOutcome.ok) (hb : bad.outcome = LoadOutcome.fileMissing)
    (h2 : good2.outcome = LoadOutcome.ok) :
    ∃ c, process_batch true [good1, bad, good2] = .done c ∧
      c.processed = staleCount good1 + staleCount good2 := by
  simp only [process_batch, Bool.true_eq_false, if_false, List.isEmpty_cons,
    Bool.false_eq_true]
  rw [foldlM_cons_ok (processImage_ok good1 ⟨0, 0, 0⟩ h1),
    foldlM_cons_ok (processImage_fileMissing bad _ hb),
    foldlM_cons_ok (processImage_ok good2 _ h2), List.foldlM_nil]
  refine ⟨_, rfl, ?_⟩
  dsimp only
  omega

/-- Witness for the amended C5: a concrete batch of a loadable image, a
missing-file image and another loadable image, all presets stale, completes
with 22 processed presets. -/
theorem missing_file_skips_only_that_image_witness :
    ∃ c, process_batch true [allStaleOkJob, allStaleMissingJob, allStaleOkJob] =
        .done c ∧
      c.processed = staleCount allStaleOkJob + staleCount allStaleOkJob :=
  missing_file_skips_only_that_image allStaleOkJob allStaleMissingJob allStaleOkJob
    rfl rfl rfl

/-- Counterexample to C8: a batch run on an existing work folder with no
image files returns after printing `"No image files found"`; it never reaches
the tally line, so no `generated=0, skipped=0` tally is reported. -/
theorem empty_work_folder_no_tally_counterexample :
    process_batch true [] = .noImages ∧
    ¬∃ c, process_batch true [] = .done c := by
  refine ⟨rfl, ?_⟩
  rintro ⟨c, hc⟩
  exact BatchOutcome.noConfusion (show BatchOutcome.noImages = BatchOutcome.done c from hc)

/-- C8 amended: a batch run on an existing work folder containing no image
files terminates successfully with exit status 0, but reports
`"No image files found"` rather than a generated/skipped tally. -/
theorem empty_work_folder_exits_successfully :
    batch_exit_code (process_batch true []) = 0 ∧ process_batch true [] = .noImages :=
  ⟨rfl, rfl⟩

/-- C10: a nonempty batch in which no image has undecodable remover output
completes with a tally, and processed + skipped accounts for 11 presets per
discovered image minus the stale presets of the images whose load returned
the `None` sentinel: when every load succeeds the sum is exactly
`11 × (number of images)`, and every sentinel with stale presets makes the
sum fall short by exactly those presets, which are counted in neither
tally. -/
theorem batch_tally_invariant (images : List ImageJob) (hne : images ≠ [])
    (h : ∀ j ∈ images, j.outcome ≠ LoadOutcome.bytesUndecodable) :
    ∃ c, process_batch true images = .done c ∧
      c.processed + c.skipped + missingStaleSum images = 11 * images.length := by
  obtain ⟨c', h1, h2⟩ := foldlM_processImage images ⟨0, 0, 0⟩ h
  refine ⟨c', ?_, by simpa using h2⟩
  have hne2 : images.isEmpty = false := by
    rw [← Bool.not_eq_true, List.isEmpty_iff]
    exact hne
  simp only [process_batch, Bool.true_eq_false, if_false, hne2, Bool.false_eq_true, h1]

/-- Witness for C10: a concrete batch of one loadable image and one
missing-file image, all presets stale, reports processed 11 and skipped 0,
and 11 + 0 + 11 = 11 × 2. -/
theorem batch_tally_invariant_witness :
    ∃ c, process_batch true [allStaleOkJob, allStaleMissingJob] = .done c ∧
      c.processed + c.skipped + missingStaleSum [allStaleOkJob, allStaleMissingJob] =
        11 * ([allStaleOkJob, allStaleMissingJob] : List ImageJob).length :=
  batch_tally_invariant [allStaleOkJob, allStaleMissingJob] (List.cons_ne_nil _ _)
    (by
      intro j hj
      rcases List.mem_cons.mp hj with h | h
      · subst h
        decide
      · rcases List.mem_cons.mp h with h2 | h2
        · subst h2
          decide
        · exact absurd h2 (List.not_mem_nil j))
